import Mathlib

/-!
Verification of the Travel Memory API (src/memory_api.py), a FastAPI
service keeping two in-memory mappings: `user_profiles : str → dict` and
`sessions : str → dict`.  Python dictionaries are embedded as association
lists with insertion-order semantics (`dictSet` rewrites an existing key
in place, otherwise appends; `dictUpdate` folds `dictSet`, which is
`dict.update`).  Each route handler becomes a function from the store to
a pair of the new store and the JSON response; handlers that raise are
total functions into an `Except`-shaped response component.
-/

/-- JSON-like values: the payloads the service stores and merges. -/
inductive Value where
  | null : Value
  | bool : Bool → Value
  | str : String → Value
  | int : Int → Value
  | arr : List Value → Value
  | obj : List (String × Value) → Value
deriving Repr

/-- Lookup in a Python-dict-as-association-list: first binding of the key. -/
def dictGet {V : Type} (d : List (String × V)) (k : String) : Option V :=
  (d.find? (fun p => p.1 = k)).map Prod.snd

/-- `d[k] = v` on a Python dict: rewrite the binding in place if the key is
present, otherwise append it (insertion order). -/
def dictSet {V : Type} (d : List (String × V)) (k : String) (v : V) :
    List (String × V) :=
  if d.any (fun p => p.1 = k) then
    d.map (fun p => if p.1 = k then (k, v) else p)
  else
    d ++ [(k, v)]

/-- `d.update(u)` on Python dicts: set every binding of `u` in order. -/
def dictUpdate {V : Type} (d u : List (String × V)) : List (String × V) :=
  u.foldl (fun acc p => dictSet acc p.1 p.2) d

/-- `class UserProfile(BaseModel)` — src/memory_api.py lines 28-40. -/
structure UserProfile where
  user_id : String
  name : Option String := none
  budget_style : Option String := none
  preferred_transport : Option String := none
  no_early_flights : Bool := false
  no_late_nights : Bool := false
  walking_tolerance : Option String := none
  food_preferences : List String := []
  transport_dislikes : List String := []
  accommodation_dislikes : List String := []
  typical_hotel_budget : Option Int := none
  total_trips_booked : Int := 0
deriving Repr, DecidableEq

/-- `class TripSlots(BaseModel)` — src/memory_api.py lines 42-51. -/
structure TripSlots where
  destination : Option String := none
  start_date : Option String := none
  end_date : Option String := none
  companions : Option String := none
  budget_level : Option String := none
  budget_min : Option Int := none
  budget_max : Option Int := none
  intent : Option String := none
  constraints : List String := []
deriving Repr, DecidableEq

/-- `class SessionState(BaseModel)` — src/memory_api.py lines 53-58. -/
structure SessionState where
  session_id : String
  user_id : String
  trip_slots : TripSlots := {}
  clarifier_count : Int := 0
  conversation_stage : String := "clarifying"
deriving Repr, DecidableEq

/-- `class Assumption(BaseModel)` — src/memory_api.py lines 60-62. -/
structure Assumption where
  text : String
  source : String
deriving Repr, DecidableEq

/-- Serialization of an `Option String` field by pydantic `.dict()`. -/
def optStrVal : Option String → Value
  | none => Value.null
  | some s => Value.str s

/-- Serialization of an `Option Int` field by pydantic `.dict()`. -/
def optIntVal : Option Int → Value
  | none => Value.null
  | some n => Value.int n

/-- `TripSlots(...).dict()`: the nested dict produced for `trip_slots`
when a `SessionState` is serialized (field declaration order). -/
def tripSlotsDict (t : TripSlots) : List (String × Value) :=
  [("destination", optStrVal t.destination),
   ("start_date", optStrVal t.start_date),
   ("end_date", optStrVal t.end_date),
   ("companions", optStrVal t.companions),
   ("budget_level", optStrVal t.budget_level),
   ("budget_min", optIntVal t.budget_min),
   ("budget_max", optIntVal t.budget_max),
   ("intent", optStrVal t.intent),
   ("constraints", Value.arr (t.constraints.map Value.str))]

/-- A session record as it sits in the `sessions` dict: `session.dict()`
with `trip_slots` as a plain dict, since `update_trip_slots` may merge
arbitrary keys into it afterwards. -/
structure StoredSession where
  session_id : String
  user_id : String
  trip_slots : List (String × Value)
  clarifier_count : Int
  conversation_stage : String
deriving Repr

/-- The two module-level mappings (src/memory_api.py lines 24-25). -/
structure Store where
  user_profiles : List (String × UserProfile)
  sessions : List (String × StoredSession)

/-- The fixed record installed by `init_sample_data`
(src/memory_api.py lines 65-80). -/
def sampleProfile : UserProfile :=
  { user_id := "user_demo_123"
    name := some "Rahul Kumar"
    budget_style := some "always_budget"
    preferred_transport := some "train"
    no_early_flights := true
    no_late_nights := false
    walking_tolerance := some "medium"
    food_preferences := ["vegetarian"]
    transport_dislikes := ["overnight_bus"]
    accommodation_dislikes := ["shared_bathroom"]
    typical_hotel_budget := some 1200
    total_trips_booked := 5 }

/-- `init_sample_data()`: writes the sample profile into `user_profiles`. -/
def init_sample_data (st : Store) : Store :=
  { st with user_profiles := dictSet st.user_profiles "user_demo_123" sampleProfile }

/-- The process-start state: empty mappings, then `init_sample_data()`. -/
def initialStore : Store :=
  init_sample_data { user_profiles := [], sessions := [] }

/-- The default profile `get_profile` synthesizes for an unknown
`user_id` (src/memory_api.py lines 108-121). -/
def defaultProfileFor (user_id : String) : UserProfile :=
  { user_id := user_id
    name := none
    budget_style := some "mixed"
    preferred_transport := none
    no_early_flights := false
    no_late_nights := false
    walking_tolerance := some "medium"
    food_preferences := []
    transport_dislikes := []
    accommodation_dislikes := []
    typical_hotel_budget := none
    total_trips_booked := 0 }

/-- `GET /profile/{user_id}` — `get_profile` (src/memory_api.py 100-124).
Returns the stored dict if present, else the synthesized default; the
store is returned unchanged because the handler performs no assignment. -/
def get_profile (st : Store) (user_id : String) : Store × UserProfile :=
  match dictGet st.user_profiles user_id with
  | none => (st, defaultProfileFor user_id)
  | some p => (st, p)

/-- Response body of `POST /profile/{user_id}`. -/
structure PostProfileResponse where
  status : String
  message : String
  user_id : String
deriving Repr, DecidableEq

/-- `POST /profile/{user_id}` — `update_profile` (src/memory_api.py
127-137): stores `profile.dict()` under the path parameter. -/
def update_profile (st : Store) (user_id : String) (profile : UserProfile) :
    Store × PostProfileResponse :=
  ({ st with user_profiles := dictSet st.user_profiles user_id profile },
   { status := "success", message := "Profile saved", user_id := user_id })

/-- Python truthiness of an optional string: `None` and `""` are falsy. -/
def pyTruthy : Option String → Bool
  | none => false
  | some s => s != ""

/-- The string an f-string interpolates for an optional string field;
only read under a `pyTruthy` guard, where it is the stored string. -/
def pyStr : Option String → String
  | none => ""
  | some s => s

/-- The assumptions appended by `get_assumptions` (src/memory_api.py
147-214), translated statement by statement: `assumptions` starts empty
and each `if` appends.  Python truthiness on the profile dict's values:
a `None` or empty string/list is falsy, the `==` tests compare the
optional string against a literal. -/
def assumptionsOf (profile : UserProfile) : List Assumption :=
  let assumptions : List Assumption := []
  let assumptions :=
    if profile.no_early_flights then
      assumptions ++ [{ text := "I\x27ll avoid early morning departures",
                        source := "profile_preference" }]
    else assumptions
  let assumptions :=
    if profile.no_late_nights then
      assumptions ++ [{ text := "I\x27ll avoid late night travel",
                        source := "profile_preference" }]
    else assumptions
  let assumptions :=
    if pyTruthy profile.preferred_transport then
      assumptions ++
        [{ text := "Prioritizing " ++ pyStr profile.preferred_transport ++
             " when possible",
           source := "profile_preference" }]
    else assumptions
  let assumptions :=
    if profile.budget_style = some "always_budget" then
      assumptions ++ [{ text := "Budget hotels (₹800-1500/night)",
                        source := "profile_preference" }]
    else if profile.budget_style = some "mid_range" then
      assumptions ++ [{ text := "Mid-range hotels (₹2000-4000/night)",
                        source := "profile_preference" }]
    else if profile.budget_style = some "luxury" then
      assumptions ++ [{ text := "Premium hotels (₹5000+/night)",
                        source := "profile_preference" }]
    else assumptions
  let assumptions :=
    if profile.walking_tolerance = some "low" then
      assumptions ++ [{ text := "Minimizing walking (max 2km/day)",
                        source := "profile_preference" }]
    else if profile.walking_tolerance = some "high" then
      assumptions ++ [{ text := "Comfortable with long walks (5-8km/day)",
                        source := "profile_preference" }]
    else assumptions
  let assumptions :=
    if profile.food_preferences ≠ [] then
      assumptions ++
        [{ text := "Food preferences: " ++
             String.intercalate ", " profile.food_preferences,
           source := "profile_preference" }]
    else assumptions
  let assumptions :=
    if profile.transport_dislikes ≠ [] then
      assumptions ++
        [{ text := "Avoiding: " ++
             String.intercalate ", " profile.transport_dislikes,
           source := "profile_preference" }]
    else assumptions
  assumptions

/-- Response body of `GET /profile/{user_id}/assumptions`. -/
structure AssumptionsResponse where
  user_id : String
  has_assumptions : Bool
  count : Nat
  assumptions : List Assumption
  formatted_text : String
deriving Repr, DecidableEq

/-- `GET /profile/{user_id}/assumptions` — `get_assumptions`
(src/memory_api.py 141-233): reads the profile through `get_profile`,
builds the assumption list, then branches on its truthiness for the
response shape. -/
def get_assumptions (st : Store) (user_id : String) :
    Store × AssumptionsResponse :=
  let profile := (get_profile st user_id).2
  let assumptions := assumptionsOf profile
  match assumptions with
  | [] =>
      (st, { user_id := user_id
             has_assumptions := false
             count := 0
             assumptions := []
             formatted_text := "No previous preferences found. Let\x27s start fresh!" })
  | _ =>
      (st, { user_id := user_id
             has_assumptions := true
             count := assumptions.length
             assumptions := assumptions
             formatted_text :=
               String.intercalate "\n"
                 (assumptions.map (fun a => "• " ++ a.text)) })

/-- Response body of `POST /session`. -/
structure PostSessionResponse where
  status : String
  message : String
  session_id : String
deriving Repr, DecidableEq

/-- `session.dict()`: the record stored by `update_session`. -/
def sessionDict (session : SessionState) : StoredSession :=
  { session_id := session.session_id
    user_id := session.user_id
    trip_slots := tripSlotsDict session.trip_slots
    clarifier_count := session.clarifier_count
    conversation_stage := session.conversation_stage }

/-- `POST /session` — `update_session` (src/memory_api.py 236-246):
stores `session.dict()` keyed by the body's `session_id`. -/
def update_session (st : Store) (session : SessionState) :
    Store × PostSessionResponse :=
  ({ st with sessions := dictSet st.sessions session.session_id (sessionDict session) },
   { status := "success", message := "Session saved",
     session_id := session.session_id })

/-- Body of `GET /session/{session_id}`: stored sessions carry a string
`user_id`, the synthesized default carries `None`. -/
structure SessionResponse where
  session_id : String
  user_id : Option String
  trip_slots : List (String × Value)
  clarifier_count : Int
  conversation_stage : String
deriving Repr

/-- A stored session rendered as a response body. -/
def storedSessionResponse (s : StoredSession) : SessionResponse :=
  { session_id := s.session_id
    user_id := some s.user_id
    trip_slots := s.trip_slots
    clarifier_count := s.clarifier_count
    conversation_stage := s.conversation_stage }

/-- `GET /session/{session_id}` — `get_session` (src/memory_api.py
249-264): the stored dict if present, else the inline default
(`trip_slots` an empty dict, `user_id` None); no assignment to the store. -/
def get_session (st : Store) (session_id : String) : Store × SessionResponse :=
  match dictGet st.sessions session_id with
  | none =>
      (st, { session_id := session_id
             user_id := none
             trip_slots := []
             clarifier_count := 0
             conversation_stage := "clarifying" })
  | some s => (st, storedSessionResponse s)

/-- The one explicit error: `HTTPException(status_code=404, detail=...)`. -/
structure HttpError where
  status_code : Nat
  detail : String
deriving Repr, DecidableEq

/-- Response body of `POST /session/{session_id}/slots`. -/
structure SlotsResponse where
  status : String
  session_id : String
  updated_slots : List (String × Value)
deriving Repr

/-- `POST /session/{session_id}/slots` — `update_trip_slots`
(src/memory_api.py 267-283): 404 when the session is unknown (the store
untouched, since the `raise` precedes any mutation); otherwise
`session["trip_slots"].update(slots)` and the input echoed back. -/
def update_trip_slots (st : Store) (session_id : String)
    (slots : List (String × Value)) :
    Store × Except HttpError SlotsResponse :=
  match dictGet st.sessions session_id with
  | none => (st, Except.error { status_code := 404, detail := "Session not found" })
  | some session =>
      let session := { session with
                       trip_slots := dictUpdate session.trip_slots slots }
      ({ st with sessions := dictSet st.sessions session_id session },
       Except.ok { status := "success", session_id := session_id,
                   updated_slots := slots })

/-- Response body of `GET /debug/users`. -/
structure UsersResponse where
  count : Nat
  users : List String
deriving Repr, DecidableEq

/-- `GET /debug/users` — `list_users` (src/memory_api.py 286-294). -/
def list_users (st : Store) : Store × UsersResponse :=
  (st, { count := st.user_profiles.length
         users := st.user_profiles.map Prod.fst })

/-- Response body of `POST /debug/reset`. -/
structure ResetResponse where
  status : String
  message : String
deriving Repr, DecidableEq

/-- `POST /debug/reset` — `reset_data` (src/memory_api.py 297-308):
clears both mappings and runs `init_sample_data()` again. -/
def reset_data (_st : Store) : Store × ResetResponse :=
  (init_sample_data { user_profiles := [], sessions := [] },
   { status := "success", message := "All data reset, sample user restored" })

/-- The counts reported by `GET /health` (src/memory_api.py 311-318);
the timestamp is wall-clock and stays outside the embedding. -/
def healthCounts (st : Store) : Nat × Nat :=
  (st.user_profiles.length, st.sessions.length)

/-! ### Dynamically-typed view of the session mapping

The Python store holds untyped dicts, and `update_trip_slots` calls
`session["trip_slots"].update(...)`, which only makes sense when the
stored value is a dict whose `"trip_slots"` member is itself a dict.
To settle the shape invariant we re-run the session endpoints over raw
`Value`s and show every reachable store keeps that shape. -/

/-- `session.dict()` as a raw JSON value (field declaration order). -/
def sessionValue (session : SessionState) : Value :=
  Value.obj
    [("session_id", Value.str session.session_id),
     ("user_id", Value.str session.user_id),
     ("trip_slots", Value.obj (tripSlotsDict session.trip_slots)),
     ("clarifier_count", Value.int session.clarifier_count),
     ("conversation_stage", Value.str session.conversation_stage)]

/-- `update_session` acting on the untyped mapping. -/
def dynUpdateSession (ss : List (String × Value)) (session : SessionState) :
    List (String × Value) :=
  dictSet ss session.session_id (sessionValue session)

/-- Outcome of `update_trip_slots` on the untyped mapping: success, the
404, or the runtime error Python would raise were a stored session not
dict-shaped (`session["trip_slots"].update` on a non-dict). -/
inductive MergeOutcome where
  | ok (sessions : List (String × Value)) (resp : SlotsResponse)
  | notFound
  | runtimeError
deriving Repr

/-- `update_trip_slots` acting on the untyped mapping, with the
ill-shaped cases made explicit. -/
def dynUpdateTripSlots (ss : List (String × Value)) (session_id : String)
    (slots : List (String × Value)) : MergeOutcome :=
  match dictGet ss session_id with
  | none => MergeOutcome.notFound
  | some (Value.obj fields) =>
      match dictGet fields "trip_slots" with
      | some (Value.obj ts) =>
          MergeOutcome.ok
            (dictSet ss session_id
              (Value.obj (dictSet fields "trip_slots"
                (Value.obj (dictUpdate ts slots)))))
            { status := "success", session_id := session_id,
              updated_slots := slots }
      | _ => MergeOutcome.runtimeError
  | some _ => MergeOutcome.runtimeError

/-- A value of session shape: a dict whose `"trip_slots"` member is a dict. -/
def SessionShaped (v : Value) : Prop :=
  ∃ fields ts, v = Value.obj fields ∧
    dictGet fields "trip_slots" = some (Value.obj ts)

/-- Session mappings reachable through the API: the process starts with
`sessions = {}`, and only `POST /session` and `POST /session/{id}/slots`
write to it (`/debug/reset` returns it to `{}`). -/
inductive ReachableSessions : List (String × Value) → Prop where
  | init : ReachableSessions []
  | post (ss : List (String × Value)) (session : SessionState) :
      ReachableSessions ss → ReachableSessions (dynUpdateSession ss session)
  | merge (ss : List (String × Value)) (session_id : String)
      (slots : List (String × Value)) (ss' : List (String × Value))
      (resp : SlotsResponse) :
      ReachableSessions ss →
      dynUpdateTripSlots ss session_id slots = MergeOutcome.ok ss' resp →
      ReachableSessions ss'

/-! ### Spec-side restatement of the assumption formatter

§4.2 of the spec describes the formatter as a fixed ordered list of
independent rules, each contributing at most one assumption.  This is
that description, to be compared with `assumptionsOf` above. -/

/-- The formatter as §4.2 words it: the concatenation, in the fixed
priority order, of one conditional singleton per rule. -/
def specAssumptions (p : UserProfile) : List Assumption :=
  (if p.no_early_flights then
     [{ text := "I\x27ll avoid early morning departures",
        source := "profile_preference" }] else []) ++
  (if p.no_late_nights then
     [{ text := "I\x27ll avoid late night travel",
        source := "profile_preference" }] else []) ++
  (if pyTruthy p.preferred_transport then
     [{ text := "Prioritizing " ++ pyStr p.preferred_transport ++
          " when possible",
        source := "profile_preference" }] else []) ++
  (if p.budget_style = some "always_budget" then
     [{ text := "Budget hotels (₹800-1500/night)",
        source := "profile_preference" }]
   else if p.budget_style = some "mid_range" then
     [{ text := "Mid-range hotels (₹2000-4000/night)",
        source := "profile_preference" }]
   else if p.budget_style = some "luxury" then
     [{ text := "Premium hotels (₹5000+/night)",
        source := "profile_preference" }]
   else []) ++
  (if p.walking_tolerance = some "low" then
     [{ text := "Minimizing walking (max 2km/day)",
        source := "profile_preference" }]
   else if p.walking_tolerance = some "high" then
     [{ text := "Comfortable with long walks (5-8km/day)",
        source := "profile_preference" }]
   else []) ++
  (if p.food_preferences ≠ [] then
     [{ text := "Food preferences: " ++
          String.intercalate ", " p.food_preferences,
        source := "profile_preference" }] else []) ++
  (if p.transport_dislikes ≠ [] then
     [{ text := "Avoiding: " ++
          String.intercalate ", " p.transport_dislikes,
        source := "profile_preference" }] else [])

/-! ### Read-only request sequences -/

/-- A read-only request: `GET /profile/{id}` or `GET /session/{id}`. -/
inductive ReadOp where
  | profileRead (user_id : String)
  | sessionRead (session_id : String)
deriving Repr, DecidableEq

/-- The store left behind by one read handler. -/
def applyRead (st : Store) : ReadOp → Store
  | ReadOp.profileRead user_id => (get_profile st user_id).1
  | ReadOp.sessionRead session_id => (get_session st session_id).1

/-- Run a sequence of read handlers, threading the store. -/
def runReads (st : Store) : List ReadOp → Store
  | [] => st
  | op :: rest => runReads (applyRead st op) rest

/-! ### Dictionary lemmas -/

theorem dictGet_cons {V : Type} (a : String × V) (d : List (String × V))
    (k : String) :
    dictGet (a :: d) k = if a.1 = k then some a.2 else dictGet d k := by
  by_cases h : a.1 = k <;> simp [dictGet, List.find?_cons, h]

theorem dictSet_cons_of_ne {V : Type} {a : String × V} {k : String}
    (d : List (String × V)) (v : V) (h : a.1 ≠ k) :
    dictSet (a :: d) k v = a :: dictSet d k v := by
  by_cases hd : d.any (fun p => p.1 = k) <;> simp [dictSet, h, hd]

theorem dictGet_map_set_of_ne {V : Type} {k k' : String}
    (d : List (String × V)) (v : V) (h : k' ≠ k) :
    dictGet (d.map (fun p => if p.1 = k then (k, v) else p)) k' =
      dictGet d k' := by
  induction d with
  | nil => rfl
  | cons a d ih =>
      by_cases hak : a.1 = k
      · have hne : k ≠ k' := fun hkk => h hkk.symm
        simp [hak, dictGet_cons, hne, ih]
      · by_cases hak' : a.1 = k'
        · simp [hak, dictGet_cons, hak', h]
        · simp [hak, dictGet_cons, hak', ih]

theorem dictGet_dictSet {V : Type} (d : List (String × V)) (k k' : String)
    (v : V) :
    dictGet (dictSet d k v) k' = if k' = k then some v else dictGet d k' := by
  induction d with
  | nil =>
      by_cases hk : k' = k
      · simp [dictSet, dictGet_cons, hk]
      · have hne : k ≠ k' := fun hkk => hk hkk.symm
        simp [dictSet, dictGet_cons, hk, hne]
  | cons a d ih =>
      by_cases hak : a.1 = k
      · have hset : dictSet (a :: d) k v =
            (k, v) :: d.map (fun p => if p.1 = k then (k, v) else p) := by
          simp [dictSet, hak, List.any_cons]
        rw [hset, dictGet_cons]
        by_cases hk : k' = k
        · simp [hk]
        · have hne : k ≠ k' := fun hkk => hk hkk.symm
          rw [dictGet_map_set_of_ne d v hk, dictGet_cons]
          simp [hne, hk, hak]
      · rw [dictSet_cons_of_ne d v hak, dictGet_cons, dictGet_cons]
        by_cases hak' : a.1 = k'
        · have hk : k' ≠ k := fun hkk => hak (hak'.trans hkk)
          simp [hak', hk]
        · simp [hak', ih]

theorem dictGet_dictSet_self {V : Type} (d : List (String × V)) (k : String)
    (v : V) : dictGet (dictSet d k v) k = some v := by
  simp [dictGet_dictSet]

theorem dictGet_dictSet_of_ne {V : Type} (d : List (String × V))
    {k k' : String} (v : V) (h : k' ≠ k) :
    dictGet (dictSet d k v) k' = dictGet d k' := by
  simp [dictGet_dictSet, h]

theorem dictGet_eq_none_of_not_mem {V : Type} {d : List (String × V)}
    {k : String} (h : k ∉ d.map Prod.fst) : dictGet d k = none := by
  induction d with
  | nil => rfl
  | cons a d ih =>
      simp only [List.map_cons, List.mem_cons] at h
      push_neg at h
      have hak : a.1 ≠ k := fun hk => h.1 hk.symm
      simp [dictGet_cons, hak, ih h.2]

theorem dictGet_dictUpdate_of_none {V : Type} (d : List (String × V))
    {u : List (String × V)} {k : String} (h : dictGet u k = none) :
    dictGet (dictUpdate d u) k = dictGet d k := by
  induction u generalizing d with
  | nil => rfl
  | cons a u ih =>
      rw [dictGet_cons] at h
      by_cases hak : a.1 = k
      · simp [hak] at h
      · simp only [hak, if_false] at h
        show dictGet (dictUpdate (dictSet d a.1 a.2) u) k = dictGet d k
        rw [ih _ h, dictGet_dictSet_of_ne _ _ (fun hk => hak hk.symm)]

theorem dictGet_dictUpdate_of_some {V : Type} (d : List (String × V))
    {u : List (String × V)} {k : String} {v : V}
    (hnd : (u.map Prod.fst).Nodup) (h : dictGet u k = some v) :
    dictGet (dictUpdate d u) k = some v := by
  induction u generalizing d with
  | nil => simp [dictGet] at h
  | cons a u ih =>
      simp only [List.map_cons, List.nodup_cons] at hnd
      rw [dictGet_cons] at h
      by_cases hak : a.1 = k
      · simp only [hak, if_true, Option.some.injEq] at h
        subst h
        have hnm : k ∉ u.map Prod.fst := by rw [← hak]; exact hnd.1
        have hu : dictGet u k = none := dictGet_eq_none_of_not_mem hnm
        show dictGet (dictUpdate (dictSet d a.1 a.2) u) k = some a.2
        rw [dictGet_dictUpdate_of_none _ hu, hak, dictGet_dictSet_self]
      · simp only [hak, if_false] at h
        exact ih (dictSet d a.1 a.2) hnd.2 h

/-! ### Frame lemmas for the read handlers -/

theorem get_profile_fst (st : Store) (user_id : String) :
    (get_profile st user_id).1 = st := by
  unfold get_profile
  cases dictGet st.user_profiles user_id <;> rfl

theorem get_session_fst (st : Store) (session_id : String) :
    (get_session st session_id).1 = st := by
  unfold get_session
  cases dictGet st.sessions session_id <;> rfl

/-! ### The claims -/

/-- C1: writing a profile through `POST /profile/{user_id}` and
immediately reading it back through `GET /profile/{user_id}` returns a
value equal to the written profile, for every store, key and profile. -/
theorem putProfile_then_getProfile (st : Store) (user_id : String)
    (p : UserProfile) :
    (get_profile (update_profile st user_id p).1 user_id).2 = p := by
  simp [get_profile, update_profile, dictGet_dictSet_self]

/-- C2: reading an absent profile returns the fixed default profile
(optional fields null/empty, budget_style "mixed", walking_tolerance
"medium", counts 0) and leaves the store untouched; reading an absent
session returns the session-shaped default (empty trip_slots dict,
clarifier_count 0, stage "clarifying", user_id null) and leaves the
store untouched.  Both handlers are total, so neither has an error case. -/
theorem get_default_on_miss (st : Store) (user_id session_id : String)
    (hp : dictGet st.user_profiles user_id = none)
    (hs : dictGet st.sessions session_id = none) :
    get_profile st user_id = (st,
      { user_id := user_id
        name := none
        budget_style := some "mixed"
        preferred_transport := none
        no_early_flights := false
        no_late_nights := false
        walking_tolerance := some "medium"
        food_preferences := []
        transport_dislikes := []
        accommodation_dislikes := []
        typical_hotel_budget := none
        total_trips_booked := 0 }) ∧
    get_session st session_id = (st,
      { session_id := session_id
        user_id := none
        trip_slots := []
        clarifier_count := 0
        conversation_stage := "clarifying" }) := by
  constructor
  · simp [get_profile, hp, defaultProfileFor]
  · simp [get_session, hs]

/-- C2 witness: concrete miss on the freshly initialized store. -/
theorem get_default_on_miss_witness :
    dictGet initialStore.user_profiles "user_unknown" = none ∧
    dictGet initialStore.sessions "session_unknown" = none ∧
    (get_profile initialStore "user_unknown" = (initialStore,
      { user_id := "user_unknown"
        name := none
        budget_style := some "mixed"
        preferred_transport := none
        no_early_flights := false
        no_late_nights := false
        walking_tolerance := some "medium"
        food_preferences := []
        transport_dislikes := []
        accommodation_dislikes := []
        typical_hotel_budget := none
        total_trips_booked := 0 }) ∧
    get_session initialStore "session_unknown" = (initialStore,
      { session_id := "session_unknown"
        user_id := none
        trip_slots := []
        clarifier_count := 0
        conversation_stage := "clarifying" })) :=
  ⟨by rfl, by rfl, get_default_on_miss initialStore _ _ (by rfl) (by rfl)⟩

/-- C4: merging slots into an unknown session returns the fixed 404
("Session not found") and hands the store back unchanged, and that 404
is the only error the slot-merge handler ever produces: the response is
an error exactly when the session is absent. -/
theorem mergeTripSlots_unknown_404 (st : Store) (session_id : String)
    (slots : List (String × Value)) :
    (dictGet st.sessions session_id = none →
      update_trip_slots st session_id slots =
        (st, Except.error { status_code := 404, detail := "Session not found" })) ∧
    (∀ e, (update_trip_slots st session_id slots).2 = Except.error e →
      dictGet st.sessions session_id = none ∧
      e = { status_code := 404, detail := "Session not found" }) := by
  cases h : dictGet st.sessions session_id with
  | none => simp [update_trip_slots, h]
  | some s => simp [update_trip_slots, h]

/-- C4 witness: a concrete merge against the initial (empty) session map. -/
theorem mergeTripSlots_unknown_404_witness :
    dictGet initialStore.sessions "session_missing" = none ∧
    update_trip_slots initialStore "session_missing"
        [("destination", Value.str "Goa")] =
      (initialStore,
       Except.error { status_code := 404, detail := "Session not found" }) :=
  ⟨by rfl,
   (mergeTripSlots_unknown_404 initialStore "session_missing"
      [("destination", Value.str "Goa")]).1 (by rfl)⟩

/-- C5: `POST /debug/reset` clears both mappings, re-seeds exactly the
single profile keyed "user_demo_123", and a following
`GET /profile/user_demo_123` returns exactly the fixed seed values. -/
theorem resetAll_reseeds_demo (st : Store) :
    (reset_data st).1.user_profiles = [("user_demo_123", sampleProfile)] ∧
    (reset_data st).1.sessions = [] ∧
    (get_profile (reset_data st).1 "user_demo_123").2 =
      { user_id := "user_demo_123"
        name := some "Rahul Kumar"
        budget_style := some "always_budget"
        preferred_transport := some "train"
        no_early_flights := true
        no_late_nights := false
        walking_tolerance := some "medium"
        food_preferences := ["vegetarian"]
        transport_dislikes := ["overnight_bus"]
        accommodation_dislikes := ["shared_bathroom"]
        typical_hotel_budget := some 1200
        total_trips_booked := 5 } := by
  refine ⟨rfl, rfl, ?_⟩
  rfl

/-- C8: any sequence of `GET /profile/{id}` and `GET /session/{id}`
requests leaves the store exactly as it was, so the `/debug/users`
listing and the health counts are unaffected by reads. -/
theorem reads_do_not_mutate (st : Store) (ops : List ReadOp) :
    runReads st ops = st ∧
    list_users (runReads st ops) = list_users st ∧
    healthCounts (runReads st ops) = healthCounts st := by
  have h : runReads st ops = st := by
    induction ops generalizing st with
    | nil => rfl
    | cons op rest ih =>
        show runReads (applyRead st op) rest = st
        cases op with
        | profileRead uid =>
            rw [applyRead, get_profile_fst]
            exact ih st
        | sessionRead sid =>
            rw [applyRead, get_session_fst]
            exact ih st
  exact ⟨h, by rw [h], by rw [h]⟩

/-- C9: `POST /profile/{user_id}` keys the write by the path parameter
alone: if the body carries a different `user_id`, the profile (body id
included) is read back verbatim under the path key, and the entry at
the body's id is untouched. -/
theorem putProfile_path_key_wins (st : Store) (path_id : String)
    (p : UserProfile) (h : p.user_id ≠ path_id) :
    (get_profile (update_profile st path_id p).1 path_id).2 = p ∧
    dictGet (update_profile st path_id p).1.user_profiles p.user_id =
      dictGet st.user_profiles p.user_id := by
  constructor
  · simp [get_profile, update_profile, dictGet_dictSet_self]
  · simp only [update_profile]
    exact dictGet_dictSet_of_ne _ _ h

/-- C9 witness: body id "user_B" stored under path id "user_A". -/
theorem putProfile_path_key_wins_witness :
    ({ sampleProfile with user_id := "user_B" } : UserProfile).user_id ≠ "user_A" ∧
    ((get_profile (update_profile initialStore "user_A"
        { sampleProfile with user_id := "user_B" }).1 "user_A").2 =
      { sampleProfile with user_id := "user_B" } ∧
    dictGet (update_profile initialStore "user_A"
        { sampleProfile with user_id := "user_B" }).1.user_profiles "user_B" =
      dictGet initialStore.user_profiles "user_B") :=
  ⟨by decide,
   putProfile_path_key_wins initialStore "user_A"
     { sampleProfile with user_id := "user_B" } (by decide)⟩

/-- C3: merging `partial_slots` into a stored session is a shallow
field-wise merge: afterwards the stored session holds, at every key of
`partial_slots`, the value from `partial_slots`, and at every other key
its prior value; the response echoes `partial_slots` as `updated_slots`.
The key list of the payload is duplicate-free because it arrives as a
Python dict. -/
theorem mergeTripSlots_shallow_merge (st : Store) (session_id : String)
    (slots : List (String × Value)) (sess : StoredSession)
    (hs : dictGet st.sessions session_id = some sess)
    (hnd : (slots.map Prod.fst).Nodup) :
    ∃ sess' : StoredSession,
      dictGet (update_trip_slots st session_id slots).1.sessions session_id =
        some sess' ∧
      (∀ k v, dictGet slots k = some v → dictGet sess'.trip_slots k = some v) ∧
      (∀ k, dictGet slots k = none →
        dictGet sess'.trip_slots k = dictGet sess.trip_slots k) ∧
      (update_trip_slots st session_id slots).2 =
        Except.ok { status := "success", session_id := session_id,
                    updated_slots := slots } := by
  refine ⟨{ sess with trip_slots := dictUpdate sess.trip_slots slots },
          ?_, ?_, ?_, ?_⟩
  · simp [update_trip_slots, hs, dictGet_dictSet_self]
  · intro k v h
    exact dictGet_dictUpdate_of_some _ hnd h
  · intro k h
    exact dictGet_dictUpdate_of_none _ h
  · simp [update_trip_slots, hs]

/-- A concrete store holding one session whose slots already contain a
`budget_level`, for exercising the merge. -/
def mergeDemoStore : Store :=
  { user_profiles := []
    sessions :=
      [("sess_1",
        { session_id := "sess_1"
          user_id := "user_demo_123"
          trip_slots := [("budget_level", Value.str "mid")]
          clarifier_count := 0
          conversation_stage := "clarifying" })] }

/-- C3 witness: merging `{"destination": "Goa"}` into a session whose
stored slots are `{"budget_level": "mid"}`. -/
theorem mergeTripSlots_shallow_merge_witness :
    dictGet mergeDemoStore.sessions "sess_1" =
      some { session_id := "sess_1"
             user_id := "user_demo_123"
             trip_slots := [("budget_level", Value.str "mid")]
             clarifier_count := 0
             conversation_stage := "clarifying" } ∧
    ([("destination", Value.str "Goa")].map
        (Prod.fst (α := String) (β := Value))).Nodup ∧
    (∃ sess' : StoredSession,
      dictGet (update_trip_slots mergeDemoStore "sess_1"
          [("destination", Value.str "Goa")]).1.sessions "sess_1" =
        some sess' ∧
      (∀ k v, dictGet [("destination", Value.str "Goa")] k = some v →
        dictGet sess'.trip_slots k = some v) ∧
      (∀ k, dictGet [("destination", Value.str "Goa")] k = none →
        dictGet sess'.trip_slots k =
          dictGet [("budget_level", Value.str "mid")] k) ∧
      (update_trip_slots mergeDemoStore "sess_1"
          [("destination", Value.str "Goa")]).2 =
        Except.ok { status := "success", session_id := "sess_1",
                    updated_slots := [("destination", Value.str "Goa")] }) :=
  ⟨by rfl, by simp,
   mergeTripSlots_shallow_merge mergeDemoStore "sess_1"
     [("destination", Value.str "Goa")]
     { session_id := "sess_1"
       user_id := "user_demo_123"
       trip_slots := [("budget_level", Value.str "mid")]
       clarifier_count := 0
       conversation_stage := "clarifying" }
     (by rfl) (by simp)⟩

/-! ### Rewriting sequential appends as ordered-rule concatenation -/

theorem append_ite_singleton {α : Type} (acc : List α) (c : Prop)
    [Decidable c] (x : α) :
    (if c then acc ++ [x] else acc) = acc ++ (if c then [x] else []) := by
  split <;> simp

theorem append_ite_pair {α : Type} (acc : List α) (c1 c2 : Prop)
    [Decidable c1] [Decidable c2] (x1 x2 : α) :
    (if c1 then acc ++ [x1] else if c2 then acc ++ [x2] else acc) =
      acc ++ (if c1 then [x1] else if c2 then [x2] else []) := by
  split_ifs <;> simp

theorem append_ite_triple {α : Type} (acc : List α) (c1 c2 c3 : Prop)
    [Decidable c1] [Decidable c2] [Decidable c3] (x1 x2 x3 : α) :
    (if c1 then acc ++ [x1]
     else if c2 then acc ++ [x2]
     else if c3 then acc ++ [x3]
     else acc) =
      acc ++ (if c1 then [x1] else if c2 then [x2] else if c3 then [x3] else []) := by
  split_ifs <;> simp

/-- C6: the formatter emits assumptions in the fixed priority order of
§4.2 — no_early_flights, no_late_nights, preferred_transport,
budget_style, walking_tolerance, food_preferences, transport_dislikes —
each rule contributing one assumption exactly when its field is
truthy/non-empty ("mixed" budget style and "medium" or unrecognized
walking tolerance contribute nothing), and every assumption carries
source "profile_preference".  The order is a function of the profile
alone; the embedding has no field ordering to depend on. -/
theorem assumptions_fixed_order (p : UserProfile) :
    assumptionsOf p = specAssumptions p ∧
    ∀ a ∈ assumptionsOf p, a.source = "profile_preference" := by
  have h : assumptionsOf p = specAssumptions p := by
    unfold assumptionsOf specAssumptions
    dsimp only
    rw [append_ite_singleton, append_ite_singleton, append_ite_pair,
        append_ite_triple, append_ite_singleton, append_ite_singleton,
        append_ite_singleton]
    simp [List.append_assoc]
  refine ⟨h, ?_⟩
  intro a ha
  rw [h] at ha
  clear h
  unfold specAssumptions at ha
  simp only [List.mem_append] at ha
  rcases ha with ((((((ha | ha) | ha) | ha) | ha) | ha) | ha) <;>
    (split_ifs at ha <;> simp_all)

/-- C7: the assumptions response always reports `count` equal to the
length of the assumptions list and `has_assumptions` true exactly when
that list is non-empty; an empty list yields the fixed fallback
`formatted_text`, a non-empty one the bullet-prefixed newline-join of
the texts in the same order. -/
theorem assumptions_response_consistent (st : Store) (user_id : String) :
    (get_assumptions st user_id).2.count =
      (get_assumptions st user_id).2.assumptions.length ∧
    ((get_assumptions st user_id).2.has_assumptions = true ↔
      (get_assumptions st user_id).2.assumptions ≠ []) ∧
    ((get_assumptions st user_id).2.assumptions = [] →
      (get_assumptions st user_id).2.formatted_text =
        "No previous preferences found. Let\x27s start fresh!") ∧
    ((get_assumptions st user_id).2.assumptions ≠ [] →
      (get_assumptions st user_id).2.formatted_text =
        String.intercalate "\n"
          ((get_assumptions st user_id).2.assumptions.map
            (fun a => "• " ++ a.text))) := by
  cases h : assumptionsOf (get_profile st user_id).2 <;>
    simp [get_assumptions, h]

/-- A profile with every optional field unset/false and all list fields
empty (pydantic defaults). -/
def blankProfile : UserProfile := { user_id := "user_blank" }

/-- The store after `POST /profile/user_blank` with the blank profile. -/
def blankStore : Store :=
  (update_profile initialStore "user_blank" blankProfile).1

/-- C7 witness: the blank profile produces no assumptions, and the
response falls back to the fixed text. -/
theorem assumptions_response_consistent_witness :
    (get_assumptions blankStore "user_blank").2.assumptions = [] ∧
    (get_assumptions blankStore "user_blank").2.formatted_text =
      "No previous preferences found. Let\x27s start fresh!" :=
  ⟨by rfl,
   (assumptions_response_consistent blankStore "user_blank").2.2.1 (by rfl)⟩

/-! ### C10: the session-shape invariant over the untyped store -/

/-- Every stored session value is session-shaped. -/
def WFSessions (ss : List (String × Value)) : Prop :=
  ∀ sid v, dictGet ss sid = some v → SessionShaped v

theorem sessionValue_shaped (session : SessionState) :
    SessionShaped (sessionValue session) :=
  ⟨_, tripSlotsDict session.trip_slots, rfl, by rfl⟩

theorem wf_dynUpdateSession (ss : List (String × Value))
    (session : SessionState) (h : WFSessions ss) :
    WFSessions (dynUpdateSession ss session) := by
  intro sid v hget
  rw [dynUpdateSession, dictGet_dictSet] at hget
  split at hget
  · simp only [Option.some.injEq] at hget
    subst hget
    exact sessionValue_shaped session
  · exact h sid v hget

theorem wf_dynUpdateTripSlots (ss : List (String × Value))
    (session_id : String) (slots : List (String × Value))
    (ss' : List (String × Value)) (resp : SlotsResponse)
    (h : WFSessions ss)
    (hm : dynUpdateTripSlots ss session_id slots = MergeOutcome.ok ss' resp) :
    WFSessions ss' := by
  unfold dynUpdateTripSlots at hm
  cases hg : dictGet ss session_id with
  | none => simp [hg] at hm
  | some v =>
      obtain ⟨fields, ts, rfl, hts⟩ := h session_id v hg
      simp only [hg, hts] at hm
      obtain ⟨hss', -⟩ := MergeOutcome.ok.inj hm
      subst hss'
      intro sid2 v2 hget2
      rw [dictGet_dictSet] at hget2
      split at hget2
      · simp only [Option.some.injEq] at hget2
        subst hget2
        exact ⟨_, dictUpdate ts slots, rfl, by rw [dictGet_dictSet_self]⟩
      · exact h sid2 v2 hget2

theorem reachable_wf (ss : List (String × Value))
    (h : ReachableSessions ss) : WFSessions ss := by
  induction h with
  | init => intro sid v hget; simp [dictGet] at hget
  | post ss session _ ih => exact wf_dynUpdateSession ss session ih
  | merge ss sid slots ss' resp _ hm ih =>
      exact wf_dynUpdateTripSlots ss sid slots ss' resp ih hm

/-- C10: in every session map reachable through the API, each stored
session is a dict whose `trip_slots` member is itself a dict, so the
`dict.update` step of the slot merge is well-defined on every stored
session (never a runtime error), and the merge's only failure mode is
NotFound, hit exactly when the session id is absent. -/
theorem stored_sessions_dict_shaped (ss : List (String × Value))
    (h : ReachableSessions ss) :
    (∀ sid v, dictGet ss sid = some v → SessionShaped v) ∧
    (∀ sid slots, dynUpdateTripSlots ss sid slots ≠ MergeOutcome.runtimeError) ∧
    (∀ sid slots,
      dynUpdateTripSlots ss sid slots = MergeOutcome.notFound ↔
        dictGet ss sid = none) := by
  have wf := reachable_wf ss h
  refine ⟨wf, ?_, ?_⟩
  · intro sid slots
    unfold dynUpdateTripSlots
    cases hg : dictGet ss sid with
    | none => simp
    | some v =>
        obtain ⟨fields, ts, rfl, hts⟩ := wf sid v hg
        simp [hts]
  · intro sid slots
    unfold dynUpdateTripSlots
    cases hg : dictGet ss sid with
    | none => simp
    | some v =>
        obtain ⟨fields, ts, rfl, hts⟩ := wf sid v hg
        simp [hg, hts]

/-- A session posted with all-default slots, for the C10 witness. -/
def demoSession : SessionState :=
  { session_id := "sess_dyn", user_id := "user_demo_123" }

/-- C10 witness: after posting one session, merging into it is not a
runtime error, and merging into a missing id is exactly NotFound. -/
theorem stored_sessions_dict_shaped_witness :
    (dynUpdateTripSlots (dynUpdateSession [] demoSession) "sess_dyn"
        [("destination", Value.str "Goa")] ≠ MergeOutcome.runtimeError) ∧
    (dynUpdateTripSlots (dynUpdateSession [] demoSession) "sess_missing" [] =
        MergeOutcome.notFound ↔
      dictGet (dynUpdateSession [] demoSession) "sess_missing" = none) :=
  ⟨(stored_sessions_dict_shaped (dynUpdateSession [] demoSession)
      (ReachableSessions.post [] demoSession ReachableSessions.init)).2.1
      "sess_dyn" [("destination", Value.str "Goa")],
   (stored_sessions_dict_shaped (dynUpdateSession [] demoSession)
      (ReachableSessions.post [] demoSession ReachableSessions.init)).2.2
      "sess_missing" []⟩

/-- C6 witness: the sample profile's assumptions follow the fixed order,
and a concrete member of the list carries source "profile_preference". -/
theorem assumptions_fixed_order_witness :
    assumptionsOf sampleProfile = specAssumptions sampleProfile ∧
    ({ text := "I\x27ll avoid early morning departures",
       source := "profile_preference" } : Assumption).source =
      "profile_preference" :=
  ⟨(assumptions_fixed_order sampleProfile).1,
   (assumptions_fixed_order sampleProfile).2
     { text := "I\x27ll avoid early morning departures",
       source := "profile_preference" } (by decide)⟩
